import Mathlib

/-!
Shallow embedding of the reservation backend of
`stripe-serverless-fresh`: the checkout-session initiator with its
5-minute hold logic (`src/api/create-checkout.js`), the Stripe webhook
fulfillment handler (`src/api/webhook.js`), and the admin booking
deletion endpoint (`src/api/admin-delete-booking.js`).

Database interactions (Supabase queries) are modelled by explicit store
values plus an error oracle that decides which store operations report an
error; the handlers are pure functions from store and request to a
response together with an ordered trace of the store mutations and
notification dispatches they attempt.
-/

namespace StripeServerless

/-! ## JavaScript string primitives

`String.prototype.split(sep)` and `Number(...)` as used by the handlers,
implemented structurally over character lists so that concrete
evaluations reduce in the kernel. -/

/-- One step of splitting a character list on a separator character,
mirroring the semantics of JavaScript `s.split(sep)` (in particular
`"".split(sep) = [""]`). -/
def splitCharList (sep : Char) : List Char → List (List Char)
  | [] => [[]]
  | c :: cs =>
    match splitCharList sep cs with
    | [] => [[c]]
    | g :: gs => if c = sep then [] :: g :: gs else (c :: g) :: gs

/-- JavaScript `s.split(sep)` for a single-character separator. -/
def jsSplit (sep : Char) (s : String) : List String :=
  (splitCharList sep s.toList).map (fun cs => String.mk cs)

/-- JavaScript `Number(s)` restricted to strings of decimal digits (the
only shape the handlers feed it: `"HH"`, `"MM"`, and numeric table ids). -/
def jsNumber (s : String) : Nat :=
  s.toList.foldl (fun a c => a * 10 + (c.toNat - 48)) 0

/-- Truthiness of a possibly-absent JavaScript string (`undefined` and
`""` are falsy). -/
def jsTruthyStr : Option String → Bool
  | some s => !(s == "")
  | none => false

/-- JavaScript `a || b` on possibly-absent strings. -/
def jsOrStr : Option String → Option String → Option String
  | some s, b => if s == "" then b else some s
  | none, b => b

/-- String interpolation of a possibly-absent value (JavaScript renders
`undefined` inside a template literal as `"undefined"`). -/
def jsInterp : Option String → String
  | some s => s
  | none => "undefined"

/-! ## Time arithmetic (`src/api/create-checkout.js` and `webhook.js`) -/

/-- `timeToMinutes` from `create-checkout.js`: `HH:MM` to minutes past
midnight via `timeStr.split(':').map(Number)` and
`parts[0] * 60 + parts[1]`. -/
def timeToMinutes (timeStr : String) : Nat :=
  let parts := (jsSplit ':' timeStr).map jsNumber
  (parts.getD 0 0) * 60 + parts.getD 1 0

/-- Two-digit zero padding, `String(n).padStart(2, '0')`. -/
def pad2 (n : Nat) : String :=
  if n < 10 then "0" ++ toString n else toString n

/-- The webhook handler's end-time computation: parse `HH:MM`, add 120
minutes via `Date` setters (which normalise minute overflow into hours
and wrap hours modulo 24), then format as `HH:MM:00`. -/
def webhookEndTime (bookingTime : String) : String :=
  let parts := (jsSplit ':' bookingTime).map jsNumber
  let hour := parts.getD 0 0
  let minute := parts.getD 1 0
  let total := minute + 120
  let endH := (hour + total / 60) % 24
  let endM := total % 60
  pad2 endH ++ ":" ++ pad2 endM ++ ":00"

/-! ## Data model -/

/-- A row of `reserved_holds`. -/
structure Hold where
  table_id : Nat
  tenant_id : String
  booking_ref : String
  date : String
  start_time : String
  end_time : String
  expires_at : Nat
deriving Repr, DecidableEq

/-- A row of `premium_slots` (a Booking). -/
structure Booking where
  id : Nat
  tenant_id : String
  table_id : Nat
  date : String
  start_time : String
  end_time : String
  payment_status : String
  booking_ref : String
deriving Repr, DecidableEq

/-- The durable store as seen by the checkout initiator: holds and paid
bookings. -/
structure Store where
  reserved_holds : List Hold
  premium_slots : List Booking
deriving Repr, DecidableEq

/-! ## createReservationHold (`src/api/create-checkout.js`) -/

/-- Error oracle and store for one `createReservationHold` call:
`checkError` makes the `reserved_holds` select fail, `insertError` makes
the `reserved_holds` insert fail. -/
structure HoldDB where
  store : Store
  checkError : Bool
  insertError : Bool
deriving Repr, DecidableEq

/-- The result object of `createReservationHold`. -/
structure HoldResult where
  isConflict : Bool
  conflictingTableId : Option Nat
  expiresAt : Option Nat
deriving Repr, DecidableEq

/-- The `reserved_holds` select: rows whose `table_id` is in the
requested set, whose `date` equals the booking date, and whose
`expires_at` is `>=` now (only active holds). -/
def activeHoldsQuery (s : Store) (tableIds : List Nat) (bookingDate : String)
    (now : Nat) : List Hold :=
  s.reserved_holds.filter fun h =>
    tableIds.contains h.table_id && h.date == bookingDate && decide (now ≤ h.expires_at)

/-- The client-side overlap filter applied to each fetched hold:
`(newStart < holdEnd) && (newEnd > holdStart)` on minutes. -/
def holdOverlaps (newStartMinutes newEndMinutes : Nat) (hold : Hold) : Bool :=
  let holdStartMinutes := timeToMinutes hold.start_time
  let holdEndMinutes := timeToMinutes hold.end_time
  decide (newStartMinutes < holdEndMinutes) && decide (newEndMinutes > holdStartMinutes)

/-- `activeHolds.find(hold => overlaps)` from `createReservationHold`. -/
def findConflictingHold (activeHolds : List Hold) (newStartMinutes newEndMinutes : Nat) :
    Option Hold :=
  activeHolds.find? (holdOverlaps newStartMinutes newEndMinutes)

/-- `createReservationHold(tableIds, tenantId, bookingRef, bookingDate,
startTime, endTime)` from `create-checkout.js`, with the ambient clock
`now` (milliseconds) passed explicitly. Returns the result object and the
store after the call. -/
def createReservationHold (db : HoldDB) (tableIds : List Nat)
    (tenantId bookingRef bookingDate startTime endTime : String) (now : Nat) :
    HoldResult × Store :=
  let fiveMinutesFromNow := now + 5 * 60 * 1000
  let newBookingStartMinutes := timeToMinutes startTime
  let newBookingEndMinutes := timeToMinutes endTime
  if db.checkError then
    ({ isConflict := true, conflictingTableId := none, expiresAt := none }, db.store)
  else
    let activeHolds := activeHoldsQuery db.store tableIds bookingDate now
    match findConflictingHold activeHolds newBookingStartMinutes newBookingEndMinutes with
    | some conflictingHold =>
      ({ isConflict := true, conflictingTableId := some conflictingHold.table_id,
         expiresAt := none }, db.store)
    | none =>
      let holdRecords := tableIds.map fun id =>
        { table_id := id, tenant_id := tenantId, expires_at := fiveMinutesFromNow,
          booking_ref := bookingRef, date := bookingDate,
          start_time := startTime, end_time := endTime : Hold }
      if db.insertError then
        ({ isConflict := true, conflictingTableId := none, expiresAt := none }, db.store)
      else
        ({ isConflict := false, conflictingTableId := none,
           expiresAt := some fiveMinutesFromNow },
         { db.store with reserved_holds := db.store.reserved_holds ++ holdRecords })

/-! ## Webhook event processor (`src/api/webhook.js`) -/

/-- The Stripe checkout-session metadata carried on the event; fields a
session may lack are `Option`s (`undefined` in JavaScript). -/
structure Metadata where
  table_ids : Option String
  booking_date : Option String
  booking_time : Option String
  customer_name : Option String
  party_size : Option String
  tenant_id : Option String
  booking_ref : Option String
  receive_offers : Option String
  email : Option String
deriving Repr, DecidableEq

/-- The checkout session object inside the event. -/
structure Session where
  id : String
  amount_total : Nat
  metadata : Metadata
  customer_details_email : Option String
deriving Repr, DecidableEq

/-- A verified Stripe event as seen by the handler after
`constructEvent` succeeded. -/
structure WEvent where
  id : String
  type : String
  session : Session
deriving Repr, DecidableEq

/-- Error oracle and store for one webhook delivery: the ids already in
the `webhook_events` ledger, plus which store operations error.
`bookingInsertFails` decides per table id whether the `premium_slots`
insert errors (e.g. the database trigger rejecting a conflicting row). -/
structure WebhookDB where
  ledger : List String
  selectError : Bool
  insertEventError : Bool
  bookingInsertFails : Nat → Bool
  optinError : Bool
  updateError : Bool

/-- One attempted store mutation or notification dispatch of the webhook
handler, in program order; mutations carry whether the store reported
success (`ok`). -/
inductive WAction where
  | insertEvent (eventId : String) (tenantId : Option String) (status : String)
      (hostNotes : String) (ok : Bool)
  | insertBooking (tenantId : Option String) (tableId : Nat)
      (date startTime : Option String) (endTime : String)
      (paymentStatus : String) (bookingRef : Option String)
      (customerEmail : Option String) (ok : Bool)
  | upsertOptin (email : String) (tenantId : Option String) (ok : Bool)
  | updateEventStatus (eventId : String) (status : String) (ok : Bool)
  | notifyStaff (kind : String)
  | notifyCustomer (email : Option String)
deriving Repr, DecidableEq

/-- HTTP status plus the ordered trace of attempted side effects of one
webhook delivery. -/
structure WebhookResult where
  status : Nat
  actions : List WAction
deriving Repr, DecidableEq

/-- Is this action a `premium_slots` insert attempt? -/
def WAction.isBookingInsert : WAction → Bool
  | .insertBooking _ _ _ _ _ _ _ _ _ => true
  | _ => false

/-- Is this action a notification dispatch (staff or customer)? -/
def WAction.isNotification : WAction → Bool
  | .notifyStaff _ => true
  | .notifyCustomer _ => true
  | _ => false

/-- The table id of a `premium_slots` insert attempt. -/
def WAction.bookingTableId : WAction → Nat
  | .insertBooking _ tableId _ _ _ _ _ _ _ => tableId
  | _ => 0

/-- The handler's `webhook_events` insert (step "LOG THE EVENT
IMMEDIATELY"): event id, tenant id from metadata, status `processing`,
`host_notes: Ref: ${metadata.booking_ref}`. -/
def wLogAct (db : WebhookDB) (event : WEvent) : WAction :=
  WAction.insertEvent event.id event.session.metadata.tenant_id "processing"
    ("Ref: " ++ jsInterp event.session.metadata.booking_ref) (!db.insertEventError)

/-- `customerEmail = metadata.email || (session.customer_details ?
session.customer_details.email : null)`. -/
def wEmail (event : WEvent) : Option String :=
  jsOrStr event.session.metadata.email event.session.customer_details_email

/-- The per-table `premium_slots` insert attempts of the fulfillment
loop, in the order of `metadata.table_ids.split(',')`, each with
`payment_status: 'PAID'` and the computed end time. -/
def wInserts (db : WebhookDB) (event : WEvent) (tids btime : String) : List WAction :=
  (jsSplit ',' tids).map fun tid =>
    WAction.insertBooking event.session.metadata.tenant_id (jsNumber tid)
      event.session.metadata.booking_date event.session.metadata.booking_time
      (webhookEndTime btime) "PAID" event.session.metadata.booking_ref
      (wEmail event) (!db.bookingInsertFails (jsNumber tid))

/-- The `allBookingsSuccessful` flag: true iff no per-table insert
errored. -/
def wAllBookingsSuccessful (db : WebhookDB) (tids : String) : Bool :=
  (jsSplit ',' tids).all fun tid => !db.bookingInsertFails (jsNumber tid)

/-- The `marketing_optins` upsert, attempted only when
`receive_offers === 'TRUE'` and the customer email is truthy. -/
def wOptinActs (db : WebhookDB) (event : WEvent) : List WAction :=
  if event.session.metadata.receive_offers == some "TRUE" && jsTruthyStr (wEmail event) then
    [WAction.upsertOptin (jsInterp (wEmail event)) event.session.metadata.tenant_id
      (!db.optinError)]
  else []

/-- The webhook handler of `src/api/webhook.js` after signature
verification succeeded: idempotency check against `webhook_events`, then
for `checkout.session.completed` log the event as `processing`, insert
one `PAID` row per table id into `premium_slots` without aborting on a
per-table error, and branch the notifications and the ledger update on
whether every insert succeeded. Always acknowledges with 200 unless the
ledger select or the ledger insert errors, or a required metadata field
is absent so that `.split` throws (an unhandled rejection, surfacing as
a 500 after the ledger insert). -/
def webhookHandler (db : WebhookDB) (event : WEvent) : WebhookResult :=
  if db.selectError then
    { status := 500, actions := [] }
  else if db.ledger.contains event.id then
    { status := 200, actions := [] }
  else if event.type == "checkout.session.completed" then
    if db.insertEventError then
      { status := 500, actions := [wLogAct db event] }
    else
      match event.session.metadata.table_ids, event.session.metadata.booking_time with
      | some tids, some btime =>
        if wAllBookingsSuccessful db tids then
          { status := 200,
            actions := wLogAct db event :: wInserts db event tids btime ++
              [WAction.notifyStaff "CUSTOMER PAID",
               WAction.notifyCustomer (wEmail event)] ++ wOptinActs db event ++
              [WAction.updateEventStatus event.id "completed" (!db.updateError)] }
        else
          { status := 200,
            actions := wLogAct db event :: wInserts db event tids btime ++
              [WAction.notifyStaff "BOOKING CONFLICT FAIL"] }
      | _, _ =>
        { status := 500, actions := [wLogAct db event] }
  else
    { status := 200, actions := [] }

/-- The ledger contents after a delivery: each successful
`webhook_events` insert adds its event id. -/
def ledgerAfter (ledger : List String) (acts : List WAction) : List String :=
  acts.foldl (fun l a =>
    match a with
    | WAction.insertEvent eid _ _ _ true => l ++ [eid]
    | _ => l) ledger

/-! ## Admin booking deletion (`src/api/admin-delete-booking.js`) -/

/-- Truthiness of a possibly-absent JavaScript number (`undefined` and
`0` are falsy). -/
def jsTruthyNat : Option Nat → Bool
  | some n => !(n == 0)
  | none => false

/-- The response of the admin delete endpoint. -/
structure DeleteResult where
  status : Nat
  message : String
deriving Repr, DecidableEq

/-- The `premium_slots` delete scoped by
`.eq('id', bookingId).eq('tenant_id', tenantId)`. -/
def deleteScopedRows (rows : List Booking) (bookingId : Nat) (tenantId : String) :
    List Booking :=
  rows.filter fun r => !(r.id == bookingId && r.tenant_id == tenantId)

/-- The admin delete handler of `src/api/admin-delete-booking.js` on a
POST body `{bookingId, tenantId}`: 400 when either field is falsy, 500
when the store errors, otherwise the scoped delete followed by the fixed
success response. Returns the response and the `premium_slots` rows
after the call. -/
def adminDeleteBooking (dbError : Bool) (rows : List Booking)
    (bookingId : Option Nat) (tenantId : Option String) :
    DeleteResult × List Booking :=
  if !(jsTruthyNat bookingId && jsTruthyStr tenantId) then
    ({ status := 400, message := "Missing bookingId or tenantId." }, rows)
  else if dbError then
    ({ status := 500, message := "Database delete failed." }, rows)
  else
    ({ status := 200, message := "Booking successfully removed." },
     deleteScopedRows rows (bookingId.getD 0) (tenantId.getD ""))

/-! ## Concrete fixtures used to instantiate the theorems -/

/-- The spec's webhook scenario metadata: `{table_ids:"5,6",
booking_date:"2025-06-01", booking_time:"19:00", tenant_id:"t1",
booking_ref:"r1"}`. -/
def scenarioMetadata : Metadata :=
  { table_ids := some "5,6", booking_date := some "2025-06-01",
    booking_time := some "19:00", customer_name := none, party_size := none,
    tenant_id := some "t1", booking_ref := some "r1",
    receive_offers := none, email := some "a@b.com" }

/-- A verified `checkout.session.completed` event carrying the scenario
metadata. -/
def scenarioEvent : WEvent :=
  { id := "evt_1", type := "checkout.session.completed",
    session := { id := "cs_1", amount_total := 1000,
                 metadata := scenarioMetadata, customer_details_email := none } }

/-- A store state with an empty ledger and no operation errors. -/
def cleanDB : WebhookDB :=
  { ledger := [], selectError := false, insertEventError := false,
    bookingInsertFails := fun _ => false, optinError := false,
    updateError := false }

/-- A hold on table 5 for 12:00–14:00, adjacent to a 10:00–12:00 request. -/
def holdNoonToTwo : Hold :=
  { table_id := 5, tenant_id := "t1", booking_ref := "r1",
    date := "2025-06-01", start_time := "12:00", end_time := "14:00",
    expires_at := 2000000 }

/-- A hold on table 5 for 11:00–13:00, overlapping a 10:00–12:00 request. -/
def holdElevenToOne : Hold :=
  { table_id := 5, tenant_id := "t1", booking_ref := "r1",
    date := "2025-06-01", start_time := "11:00", end_time := "13:00",
    expires_at := 2000000 }

/-- A `PAID` booking of table 5 for 19:00–21:00 on 2025-06-01. -/
def paidBookingSeven : Booking :=
  { id := 1, tenant_id := "t1", table_id := 5, date := "2025-06-01",
    start_time := "19:00", end_time := "21:00", payment_status := "PAID",
    booking_ref := "r0" }

/-- A booking row owned by tenant `t1`, targeted by a delete request
carrying tenant `t2`. -/
def bookingOwnedByT1 : Booking :=
  { id := 1, tenant_id := "t1", table_id := 5, date := "2025-06-01",
    start_time := "19:00", end_time := "21:00", payment_status := "PAID",
    booking_ref := "r1" }

/-- A store state in which the `premium_slots` insert for table 6 errors
(the database constraint rejecting a conflicting row) while the
remaining operations succeed. -/
def oneFailDB : WebhookDB :=
  { cleanDB with bookingInsertFails := fun t => t == 6 }

/-- Checkout metadata lacking both the tenant id and the booking
reference. -/
def noTenantMetadata : Metadata :=
  { table_ids := some "5", booking_date := some "2025-06-01",
    booking_time := some "19:00", customer_name := none, party_size := none,
    tenant_id := none, booking_ref := none, receive_offers := none,
    email := some "a@b.com" }

/-- A verified `checkout.session.completed` event whose metadata lacks
the tenant id and the booking reference. -/
def noTenantEvent : WEvent :=
  { id := "evt_2", type := "checkout.session.completed",
    session := { id := "cs_2", amount_total := 1000,
                 metadata := noTenantMetadata, customer_details_email := none } }

/-! ## Shared lemmas about the webhook handler -/

/-- Characterization of a delivery of a new `checkout.session.completed`
event with well-formed `table_ids`/`booking_time` and no ledger errors:
the result is the processing-log action, the per-table insert attempts,
and then the branch chosen by `allBookingsSuccessful`. -/
theorem webhookHandler_new_completed (db : WebhookDB) (event : WEvent)
    (tids btime : String)
    (hsel : db.selectError = false)
    (hnew : db.ledger.contains event.id = false)
    (htype : event.type = "checkout.session.completed")
    (hlog : db.insertEventError = false)
    (htids : event.session.metadata.table_ids = some tids)
    (htime : event.session.metadata.booking_time = some btime) :
    webhookHandler db event =
      if wAllBookingsSuccessful db tids then
        { status := 200,
          actions := wLogAct db event :: wInserts db event tids btime ++
            [WAction.notifyStaff "CUSTOMER PAID",
             WAction.notifyCustomer (wEmail event)] ++ wOptinActs db event ++
            [WAction.updateEventStatus event.id "completed" (!db.updateError)] }
      else
        { status := 200,
          actions := wLogAct db event :: wInserts db event tids btime ++
            [WAction.notifyStaff "BOOKING CONFLICT FAIL"] } := by
  unfold webhookHandler
  rw [hsel, hnew, htype, hlog, htids, htime]
  simp

/-- No list element built by `wInserts` other than a booking-insert
attempt exists, and the booking-insert attempts carry exactly the split
table ids in order. -/
theorem wInserts_tableIds (db : WebhookDB) (event : WEvent) (tids btime : String) :
    ((wInserts db event tids btime).filter WAction.isBookingInsert).map
        WAction.bookingTableId = (jsSplit ',' tids).map jsNumber := by
  unfold wInserts
  rw [List.filter_map]
  have h1 : (WAction.isBookingInsert ∘ fun tid =>
      WAction.insertBooking event.session.metadata.tenant_id (jsNumber tid)
        event.session.metadata.booking_date event.session.metadata.booking_time
        (webhookEndTime btime) "PAID" event.session.metadata.booking_ref
        (wEmail event) (!db.bookingInsertFails (jsNumber tid))) = fun _ => true := by
    funext tid; rfl
  rw [h1, List.filter_true, List.map_map]
  rfl

/-- The marketing upsert block contains no booking-insert attempt. -/
theorem wOptinActs_no_booking (db : WebhookDB) (event : WEvent) :
    (wOptinActs db event).filter WAction.isBookingInsert = [] := by
  unfold wOptinActs
  split <;> rfl

/-- For a new, well-formed `checkout.session.completed` delivery the
booking-insert attempts, in order, cover exactly the split table ids —
also when some of those inserts error. -/
theorem handler_bookings_attempted (db : WebhookDB) (event : WEvent)
    (tids btime : String)
    (hsel : db.selectError = false)
    (hnew : db.ledger.contains event.id = false)
    (htype : event.type = "checkout.session.completed")
    (hlog : db.insertEventError = false)
    (htids : event.session.metadata.table_ids = some tids)
    (htime : event.session.metadata.booking_time = some btime) :
    ((webhookHandler db event).actions.filter WAction.isBookingInsert).map
        WAction.bookingTableId = (jsSplit ',' tids).map jsNumber := by
  rw [webhookHandler_new_completed db event tids btime hsel hnew htype hlog htids htime]
  by_cases hall : wAllBookingsSuccessful db tids
  · rw [if_pos hall]
    simp only [List.filter_cons, List.filter_append]
    rw [wOptinActs_no_booking]
    simp [wInserts_tableIds, wLogAct, WAction.isBookingInsert]
  · rw [if_neg hall]
    simp only [List.filter_cons, List.filter_append]
    simp [wInserts_tableIds, wLogAct, WAction.isBookingInsert]

/-- For a new, well-formed `checkout.session.completed` delivery the
very first store action is the `webhook_events` insert with status
`processing`. -/
theorem handler_head_processing (db : WebhookDB) (event : WEvent)
    (tids btime : String)
    (hsel : db.selectError = false)
    (hnew : db.ledger.contains event.id = false)
    (htype : event.type = "checkout.session.completed")
    (hlog : db.insertEventError = false)
    (htids : event.session.metadata.table_ids = some tids)
    (htime : event.session.metadata.booking_time = some btime) :
    (webhookHandler db event).actions.head? = some (WAction.insertEvent event.id
      event.session.metadata.tenant_id "processing"
      ("Ref: " ++ jsInterp event.session.metadata.booking_ref) true) := by
  rw [webhookHandler_new_completed db event tids btime hsel hnew htype hlog htids htime]
  by_cases hall : wAllBookingsSuccessful db tids
  · rw [if_pos hall]
    simp [wLogAct, hlog]
  · rw [if_neg hall]
    simp [wLogAct, hlog]

/-! ## Shared lemmas about createReservationHold -/

/-- When the active-hold scan finds an overlap (and the select itself
did not error), `createReservationHold` reports a conflict and returns
the store unchanged. -/
theorem hold_conflict_pure (db : HoldDB) (tableIds : List Nat)
    (tenantId bookingRef bookingDate startTime endTime : String) (now : Nat)
    (hce : db.checkError = false)
    (hfind : (findConflictingHold (activeHoldsQuery db.store tableIds bookingDate now)
        (timeToMinutes startTime) (timeToMinutes endTime)).isSome = true) :
    (createReservationHold db tableIds tenantId bookingRef bookingDate
        startTime endTime now).1.isConflict = true ∧
    (createReservationHold db tableIds tenantId bookingRef bookingDate
        startTime endTime now).2 = db.store := by
  rw [Option.isSome_iff_exists] at hfind
  obtain ⟨h, hh⟩ := hfind
  unfold createReservationHold
  rw [hce]
  simp [hh]

/-- A call that reports no conflict appended exactly its own hold
records, one per requested table id, expiring five minutes after now. -/
theorem hold_success_store (db : HoldDB) (tableIds : List Nat)
    (tenantId bookingRef bookingDate startTime endTime : String) (now : Nat)
    (hok : (createReservationHold db tableIds tenantId bookingRef bookingDate
        startTime endTime now).1.isConflict = false) :
    (createReservationHold db tableIds tenantId bookingRef bookingDate
        startTime endTime now).2.reserved_holds =
      db.store.reserved_holds ++ tableIds.map (fun id =>
        { table_id := id, tenant_id := tenantId, expires_at := now + 5 * 60 * 1000,
          booking_ref := bookingRef, date := bookingDate,
          start_time := startTime, end_time := endTime : Hold }) := by
  unfold createReservationHold at hok ⊢
  by_cases hc : db.checkError
  · simp [hc] at hok
  · simp only [hc, if_false] at hok ⊢
    cases hf : findConflictingHold (activeHoldsQuery db.store tableIds bookingDate now)
        (timeToMinutes startTime) (timeToMinutes endTime)
    · rw [hf] at hok
      by_cases hi : db.insertError
      · simp [hi] at hok
      · simp [hi]
    · rw [hf] at hok
      simp at hok

/-! ## The claims -/

/-- C1, counterexample: a request for table 5 on 2025-06-01, 19:00 to
21:00, overlapping an existing `PAID` Booking row for the same table and
interval, is NOT given a conflict by the pre-hold check, because
`createReservationHold` never queries `premium_slots`. The claim states
such a request must receive a conflict response. -/
theorem C1_paid_booking_not_checked :
    (createReservationHold ⟨⟨[], [paidBookingSeven]⟩, false, false⟩ [5] "t1" "r1"
      "2025-06-01" "19:00" "21:00" 1000).1.isConflict = false := by
  decide

/-- C1, amended: the conflict check run before creating the hold
consults only active Hold rows; its result object and the holds it
writes are identical under any change to the `PAID` Booking rows, so an
overlap with a `PAID` Booking alone never produces a conflict
response. -/
theorem C1_conflict_check_ignores_bookings (holds : List Hold)
    (bookings bookings' : List Booking) (ce ie : Bool) (tableIds : List Nat)
    (tenantId bookingRef bookingDate startTime endTime : String) (now : Nat) :
    (createReservationHold ⟨⟨holds, bookings⟩, ce, ie⟩ tableIds tenantId bookingRef
        bookingDate startTime endTime now).1 =
      (createReservationHold ⟨⟨holds, bookings'⟩, ce, ie⟩ tableIds tenantId bookingRef
        bookingDate startTime endTime now).1 ∧
    (createReservationHold ⟨⟨holds, bookings⟩, ce, ie⟩ tableIds tenantId bookingRef
        bookingDate startTime endTime now).2.reserved_holds =
      (createReservationHold ⟨⟨holds, bookings'⟩, ce, ie⟩ tableIds tenantId bookingRef
        bookingDate startTime endTime now).2.reserved_holds := by
  unfold createReservationHold
  cases ce
  · simp only [Bool.false_eq_true, if_false]
    cases hf : findConflictingHold (activeHoldsQuery ⟨holds, bookings⟩ tableIds bookingDate now)
        (timeToMinutes startTime) (timeToMinutes endTime)
    all_goals
      have hq : activeHoldsQuery ⟨holds, bookings'⟩ tableIds bookingDate now =
          activeHoldsQuery ⟨holds, bookings⟩ tableIds bookingDate now := rfl
      rw [hq]
      cases ie <;> simp [hf]
  · simp

/-- C2: delivering an event whose id is already in the `webhook_events`
ledger returns 200 with no store mutation and no notification at all;
and on the spec scenario (tables 5 and 6) the first delivery performs
exactly two Booking inserts, one staff notification and one customer
confirmation, while the second delivery of the same event performs
nothing and both return 200. -/
theorem C2_duplicate_event_no_side_effects :
    (∀ (db : WebhookDB) (event : WEvent), db.selectError = false →
      db.ledger.contains event.id = true →
      webhookHandler db event = { status := 200, actions := [] }) ∧
    ((webhookHandler cleanDB scenarioEvent).status = 200 ∧
     ((webhookHandler cleanDB scenarioEvent).actions.filter
        WAction.isBookingInsert).map WAction.bookingTableId = [5, 6] ∧
     ((webhookHandler cleanDB scenarioEvent).actions.filter fun a =>
        a == WAction.notifyStaff "CUSTOMER PAID").length = 1 ∧
     ((webhookHandler cleanDB scenarioEvent).actions.filter
        WAction.isNotification).length = 2 ∧
     webhookHandler
        { cleanDB with
          ledger := ledgerAfter cleanDB.ledger (webhookHandler cleanDB scenarioEvent).actions }
        scenarioEvent = { status := 200, actions := [] }) := by
  constructor
  · intro db event hsel hdup
    unfold webhookHandler
    rw [hsel, hdup]
    simp
  · exact ⟨by decide, by decide, by decide, by decide, by decide⟩

/-- C2, witness: a delivery of the scenario event against a ledger that
already contains its id returns 200 with an empty action trace. -/
theorem C2_duplicate_event_no_side_effects_witness :
    webhookHandler { cleanDB with ledger := ["evt_1"] } scenarioEvent =
      { status := 200, actions := [] } :=
  C2_duplicate_event_no_side_effects.1 _ _ rfl (by decide)

/-- C3: during fulfillment every table id of the request gets its insert
attempted, in order, regardless of failures of earlier inserts; and if
any per-table insert fails, the handler still returns 200, dispatches no
customer confirmation, and sends the urgent staff conflict alert. -/
theorem C3_insert_failure_isolated (db : WebhookDB) (event : WEvent)
    (tids btime : String)
    (hsel : db.selectError = false)
    (hnew : db.ledger.contains event.id = false)
    (htype : event.type = "checkout.session.completed")
    (hlog : db.insertEventError = false)
    (htids : event.session.metadata.table_ids = some tids)
    (htime : event.session.metadata.booking_time = some btime) :
    (((webhookHandler db event).actions.filter WAction.isBookingInsert).map
        WAction.bookingTableId = (jsSplit ',' tids).map jsNumber) ∧
    ((∃ tid ∈ jsSplit ',' tids, db.bookingInsertFails (jsNumber tid) = true) →
      (webhookHandler db event).status = 200 ∧
      (∀ e, WAction.notifyCustomer e ∉ (webhookHandler db event).actions) ∧
      WAction.notifyStaff "BOOKING CONFLICT FAIL" ∈ (webhookHandler db event).actions) := by
  refine ⟨handler_bookings_attempted db event tids btime hsel hnew htype hlog htids htime, ?_⟩
  intro ⟨tid, hmem, hf⟩
  have hall : ¬ (wAllBookingsSuccessful db tids = true) := by
    intro hall
    unfold wAllBookingsSuccessful at hall
    rw [List.all_eq_true] at hall
    have := hall tid hmem
    rw [hf] at this
    simp at this
  rw [webhookHandler_new_completed db event tids btime hsel hnew htype hlog htids htime]
  rw [if_neg hall]
  refine ⟨rfl, ?_, ?_⟩
  · intro e
    simp [wLogAct, wInserts, List.mem_map]
  · simp

/-- C3, witness: on the scenario event with the insert for table 6
failing, inserts for both tables 5 and 6 are attempted, the response is
200, and the staff conflict alert is dispatched. -/
theorem C3_insert_failure_isolated_witness :
    (((webhookHandler oneFailDB scenarioEvent).actions.filter WAction.isBookingInsert).map
        WAction.bookingTableId = (jsSplit ',' "5,6").map jsNumber) ∧
    (webhookHandler oneFailDB scenarioEvent).status = 200 ∧
    WAction.notifyStaff "BOOKING CONFLICT FAIL" ∈ (webhookHandler oneFailDB scenarioEvent).actions :=
  ⟨(C3_insert_failure_isolated oneFailDB scenarioEvent "5,6" "19:00" rfl (by decide)
      rfl rfl rfl rfl).1,
   ((C3_insert_failure_isolated oneFailDB scenarioEvent "5,6" "19:00" rfl (by decide)
      rfl rfl rfl rfl).2 ⟨"6", by decide, by decide⟩).1,
   ((C3_insert_failure_isolated oneFailDB scenarioEvent "5,6" "19:00" rfl (by decide)
      rfl rfl rfl rfl).2 ⟨"6", by decide, by decide⟩).2.2⟩

/-- C4: for a new `checkout.session.completed` event the first store
action is the `webhook_events` insert with status `processing` (hence it
precedes every Booking insert); an update of that row to `completed` is
attempted exactly when every Booking insert succeeded; and when
attempted it is the final action, after every Booking insert. -/
theorem C4_processing_then_completed (db : WebhookDB) (event : WEvent)
    (tids btime : String)
    (hsel : db.selectError = false)
    (hnew : db.ledger.contains event.id = false)
    (htype : event.type = "checkout.session.completed")
    (hlog : db.insertEventError = false)
    (htids : event.session.metadata.table_ids = some tids)
    (htime : event.session.metadata.booking_time = some btime) :
    ((webhookHandler db event).actions.head? = some (WAction.insertEvent event.id
        event.session.metadata.tenant_id "processing"
        ("Ref: " ++ jsInterp event.session.metadata.booking_ref) true)) ∧
    ((∃ ok, WAction.updateEventStatus event.id "completed" ok ∈
        (webhookHandler db event).actions) ↔ wAllBookingsSuccessful db tids = true) ∧
    (∀ ok, WAction.updateEventStatus event.id "completed" ok ∈
        (webhookHandler db event).actions →
      (webhookHandler db event).actions.getLast? =
        some (WAction.updateEventStatus event.id "completed" ok)) := by
  refine ⟨handler_head_processing db event tids btime hsel hnew htype hlog htids htime, ?_⟩
  rw [webhookHandler_new_completed db event tids btime hsel hnew htype hlog htids htime]
  by_cases hall : wAllBookingsSuccessful db tids
  · rw [if_pos hall]
    refine ⟨?_, ?_⟩
    · constructor
      · intro _; exact hall
      · intro _
        exact ⟨!db.updateError, by simp⟩
    · intro ok hmem
      have hok : ok = !db.updateError := by
        simp [wLogAct, wInserts, wOptinActs, List.mem_append, List.mem_map] at hmem
        exact hmem
      subst hok
      show (wLogAct db event :: (wInserts db event tids btime ++
          [WAction.notifyStaff "CUSTOMER PAID", WAction.notifyCustomer (wEmail event)] ++
          wOptinActs db event ++
          [WAction.updateEventStatus event.id "completed" (!db.updateError)])).getLast? = _
      rw [show wLogAct db event :: (wInserts db event tids btime ++
            [WAction.notifyStaff "CUSTOMER PAID", WAction.notifyCustomer (wEmail event)] ++
            wOptinActs db event ++
            [WAction.updateEventStatus event.id "completed" (!db.updateError)]) =
          (wLogAct db event :: (wInserts db event tids btime ++
            [WAction.notifyStaff "CUSTOMER PAID", WAction.notifyCustomer (wEmail event)] ++
            wOptinActs db event)) ++
          [WAction.updateEventStatus event.id "completed" (!db.updateError)] by simp,
        List.getLast?_concat]
  · rw [if_neg hall]
    refine ⟨?_, ?_⟩
    · constructor
      · intro ⟨ok, hmem⟩
        exfalso
        simp [wLogAct, wInserts, List.mem_append, List.mem_map] at hmem
      · intro h; exact absurd h hall
    · intro ok hmem
      exfalso
      simp [wLogAct, wInserts, List.mem_append, List.mem_map] at hmem

/-- C4, witness: on the scenario the first action is the `processing`
ledger insert and the last action is the `completed` ledger update. -/
theorem C4_processing_then_completed_witness :
    ((webhookHandler cleanDB scenarioEvent).actions.head? =
      some (WAction.insertEvent "evt_1" (some "t1") "processing" "Ref: r1" true)) ∧
    ((webhookHandler cleanDB scenarioEvent).actions.getLast? =
      some (WAction.updateEventStatus "evt_1" "completed" true)) :=
  ⟨(C4_processing_then_completed cleanDB scenarioEvent "5,6" "19:00" rfl (by decide)
      rfl rfl rfl rfl).1,
   (C4_processing_then_completed cleanDB scenarioEvent "5,6" "19:00" rfl (by decide)
      rfl rfl rfl rfl).2.2 true (by decide)⟩

/-- C5: the conflict filter holds exactly when start1 is before end2 and
end1 is after start2 on minutes-since-midnight, treating the intervals
as half-open; adjacent intervals 10:00 to 12:00 versus 12:00 to 14:00
give no conflict, while 10:00 to 12:00 versus 11:00 to 13:00 do. -/
theorem C5_overlap_predicate :
    (∀ (startTime endTime : String) (hold : Hold),
      holdOverlaps (timeToMinutes startTime) (timeToMinutes endTime) hold = true ↔
        (timeToMinutes startTime < timeToMinutes hold.end_time ∧
         timeToMinutes hold.start_time < timeToMinutes endTime)) ∧
    (createReservationHold ⟨⟨[holdNoonToTwo], []⟩, false, false⟩ [5] "t1" "r2"
        "2025-06-01" "10:00" "12:00" 1000).1.isConflict = false ∧
    (createReservationHold ⟨⟨[holdElevenToOne], []⟩, false, false⟩ [5] "t1" "r2"
        "2025-06-01" "10:00" "12:00" 1000).1.isConflict = true := by
  refine ⟨?_, by decide, by decide⟩
  intro startTime endTime hold
  unfold holdOverlaps
  simp [Bool.and_eq_true, decide_eq_true_iff]

/-- C6, counterexample: deleting booking id 1 with tenant `t2`, which
does not own it, leaves the row untouched but responds with the fixed
200 success message, not a not-found/no-op result. -/
theorem C6_success_reported_despite_no_match :
    adminDeleteBooking false [bookingOwnedByT1] (some 1) (some "t2") =
      ({ status := 200, message := "Booking successfully removed." },
       [bookingOwnedByT1]) := by
  decide

/-- C6, amended: the delete touches only rows matching both the booking
id and the tenant id, so a row of another tenant always survives; but
the handler responds with the fixed 200 success message whether or not
any row matched — it never reports not-found. -/
theorem C6_tenant_scoped_delete (rows : List Booking) (bookingId : Nat)
    (tenantId : String) (r : Booking)
    (hid : bookingId ≠ 0) (hten : tenantId ≠ "")
    (hmem : r ∈ rows) (hr : r.tenant_id ≠ tenantId) :
    r ∈ (adminDeleteBooking false rows (some bookingId) (some tenantId)).2 ∧
    (adminDeleteBooking false rows (some bookingId) (some tenantId)).1 =
      { status := 200, message := "Booking successfully removed." } := by
  have h1 : jsTruthyNat (some bookingId) = true := by simp [jsTruthyNat, hid]
  have h2 : jsTruthyStr (some tenantId) = true := by simp [jsTruthyStr, hten]
  unfold adminDeleteBooking
  rw [h1, h2]
  simp only [Bool.and_self, Bool.not_true, Bool.false_eq_true, if_false]
  exact ⟨by simp [deleteScopedRows, List.mem_filter, hmem, hr], trivial⟩

/-- C6, witness: the scoped delete at booking id 1 with non-owning
tenant `t2` keeps the `t1` row and still answers 200 success. -/
theorem C6_tenant_scoped_delete_witness :
    bookingOwnedByT1 ∈ (adminDeleteBooking false [bookingOwnedByT1] (some 1) (some "t2")).2 ∧
    (adminDeleteBooking false [bookingOwnedByT1] (some 1) (some "t2")).1 =
      { status := 200, message := "Booking successfully removed." } :=
  C6_tenant_scoped_delete [bookingOwnedByT1] 1 "t2" bookingOwnedByT1 (by decide)
    (by decide) (by decide) (by decide)

/-- C7, counterexample: a verified `checkout.session.completed` event
whose metadata lacks both tenant id and booking reference is NOT treated
as a hard failure: fulfillment proceeds, one Booking insert is attempted
for its single table id, two notifications are dispatched, and the
response is 200. The claim states no fulfillment side effect may
execute. -/
theorem C7_missing_metadata_still_fulfills :
    ((webhookHandler cleanDB noTenantEvent).actions.filter
        WAction.isBookingInsert).length = 1 ∧
    ((webhookHandler cleanDB noTenantEvent).actions.filter
        WAction.isNotification).length = 2 ∧
    (webhookHandler cleanDB noTenantEvent).status = 200 := by
  refine ⟨by decide, by decide, by decide⟩

/-- C7, amended: the processor performs no validation of tenant id or
booking reference: for a new event lacking both, the ledger row is
inserted with an absent tenant id and the note `Ref: undefined`, the
per-table Booking inserts are still attempted, and the handler
acknowledges with 200. -/
theorem C7_no_metadata_validation (db : WebhookDB) (event : WEvent)
    (tids btime : String)
    (hsel : db.selectError = false)
    (hnew : db.ledger.contains event.id = false)
    (htype : event.type = "checkout.session.completed")
    (hlog : db.insertEventError = false)
    (htids : event.session.metadata.table_ids = some tids)
    (htime : event.session.metadata.booking_time = some btime)
    (hten : event.session.metadata.tenant_id = none)
    (href : event.session.metadata.booking_ref = none) :
    ((webhookHandler db event).actions.head? = some (WAction.insertEvent event.id
        none "processing" "Ref: undefined" true)) ∧
    (((webhookHandler db event).actions.filter WAction.isBookingInsert).map
        WAction.bookingTableId = (jsSplit ',' tids).map jsNumber) ∧
    (webhookHandler db event).status = 200 := by
  refine ⟨?_, handler_bookings_attempted db event tids btime hsel hnew htype hlog
      htids htime, ?_⟩
  · have h := handler_head_processing db event tids btime hsel hnew htype hlog htids htime
    rw [hten, href] at h
    exact h
  · rw [webhookHandler_new_completed db event tids btime hsel hnew htype hlog htids htime]
    by_cases hall : wAllBookingsSuccessful db tids
    · rw [if_pos hall]
    · rw [if_neg hall]

/-- C7, witness: on the concrete event without tenant id and booking
reference, the ledger row is inserted with `Ref: undefined`, the table-5
insert is attempted, and the response is 200. -/
theorem C7_no_metadata_validation_witness :
    ((webhookHandler cleanDB noTenantEvent).actions.head? = some (WAction.insertEvent
        "evt_2" none "processing" "Ref: undefined" true)) ∧
    (((webhookHandler cleanDB noTenantEvent).actions.filter WAction.isBookingInsert).map
        WAction.bookingTableId = (jsSplit ',' "5").map jsNumber) ∧
    (webhookHandler cleanDB noTenantEvent).status = 200 :=
  C7_no_metadata_validation cleanDB noTenantEvent "5" "19:00" rfl (by decide)
    rfl rfl rfl rfl rfl rfl

/-- C8: an error of the active-holds select, or of the hold insert,
makes `createReservationHold` report a conflict (fail closed), for every
input. -/
theorem C8_store_error_fails_closed (db : HoldDB) (tableIds : List Nat)
    (tenantId bookingRef bookingDate startTime endTime : String) (now : Nat)
    (h : db.checkError = true ∨ db.insertError = true) :
    (createReservationHold db tableIds tenantId bookingRef bookingDate
      startTime endTime now).1.isConflict = true := by
  unfold createReservationHold
  rcases h with h | h
  · simp [h]
  · by_cases hc : db.checkError
    · simp [hc]
    · simp only [hc, if_false]
      cases hf : findConflictingHold (activeHoldsQuery db.store tableIds bookingDate now)
          (timeToMinutes startTime) (timeToMinutes endTime) <;> simp [hf, h]

/-- C8, witness: with the select erroring, a request on an empty store
is denied. -/
theorem C8_store_error_fails_closed_witness :
    (createReservationHold ⟨⟨[], []⟩, true, false⟩ [5] "t1" "r1" "2025-06-01"
      "10:00" "12:00" 0).1.isConflict = true :=
  C8_store_error_fails_closed _ _ _ _ _ _ _ _ (Or.inl rfl)

/-- C9: when the scan over active holds finds an overlap,
`createReservationHold` reports the conflict and the store after the
call equals the store before it — no hold row is inserted. -/
theorem C9_conflict_is_pure (db : HoldDB) (tableIds : List Nat)
    (tenantId bookingRef bookingDate startTime endTime : String) (now : Nat)
    (hce : db.checkError = false)
    (hfind : (findConflictingHold (activeHoldsQuery db.store tableIds bookingDate now)
        (timeToMinutes startTime) (timeToMinutes endTime)).isSome = true) :
    (createReservationHold db tableIds tenantId bookingRef bookingDate
        startTime endTime now).1.isConflict = true ∧
    (createReservationHold db tableIds tenantId bookingRef bookingDate
        startTime endTime now).2 = db.store :=
  hold_conflict_pure db tableIds tenantId bookingRef bookingDate startTime endTime now
    hce hfind

/-- C9, witness: a request overlapping the active 11:00 to 13:00 hold is
denied and the store is returned unchanged. -/
theorem C9_conflict_is_pure_witness :
    (createReservationHold ⟨⟨[holdElevenToOne], []⟩, false, false⟩ [5] "t1" "r2"
        "2025-06-01" "10:00" "12:00" 1000).1.isConflict = true ∧
    (createReservationHold ⟨⟨[holdElevenToOne], []⟩, false, false⟩ [5] "t1" "r2"
        "2025-06-01" "10:00" "12:00" 1000).2 = ⟨[holdElevenToOne], []⟩ :=
  C9_conflict_is_pure _ _ _ _ _ _ _ _ rfl (by decide)

/-- C10: the active-hold query has no self-exclusion by booking
reference: after a successful call, a second call for the same tables
and date with an overlapping interval, made before the five-minute
expiry and carrying the same booking reference, is reported as a
conflict by the holds the first call wrote. -/
theorem C10_retry_blocked_by_own_hold (s : Store) (tableIds : List Nat)
    (tenantId bookingRef bookingDate startTime endTime startTime2 endTime2 : String)
    (t0 t1 firstId : Nat) (hmem : firstId ∈ tableIds)
    (h1 : (createReservationHold ⟨s, false, false⟩ tableIds tenantId bookingRef
        bookingDate startTime endTime t0).1.isConflict = false)
    (ht : t1 ≤ t0 + 5 * 60 * 1000)
    (hov1 : timeToMinutes startTime2 < timeToMinutes endTime)
    (hov2 : timeToMinutes startTime < timeToMinutes endTime2) :
    (createReservationHold
        ⟨(createReservationHold ⟨s, false, false⟩ tableIds tenantId bookingRef
            bookingDate startTime endTime t0).2, false, false⟩
        tableIds tenantId bookingRef bookingDate startTime2 endTime2 t1).1.isConflict
      = true := by
  set store2 := (createReservationHold ⟨s, false, false⟩ tableIds tenantId bookingRef
      bookingDate startTime endTime t0).2 with hstore2
  have hholds : store2.reserved_holds = s.reserved_holds ++ tableIds.map (fun id =>
      { table_id := id, tenant_id := tenantId, expires_at := t0 + 5 * 60 * 1000,
        booking_ref := bookingRef, date := bookingDate,
        start_time := startTime, end_time := endTime : Hold }) :=
    hold_success_store _ _ _ _ _ _ _ _ h1
  have hsome : (findConflictingHold (activeHoldsQuery store2 tableIds bookingDate t1)
      (timeToMinutes startTime2) (timeToMinutes endTime2)).isSome = true := by
    unfold findConflictingHold
    rw [List.find?_isSome]
    refine ⟨{ table_id := firstId, tenant_id := tenantId,
              expires_at := t0 + 5 * 60 * 1000, booking_ref := bookingRef,
              date := bookingDate, start_time := startTime,
              end_time := endTime : Hold }, ?_, ?_⟩
    · unfold activeHoldsQuery
      rw [List.mem_filter]
      constructor
      · rw [hholds, List.mem_append]
        exact Or.inr (List.mem_map.mpr ⟨firstId, hmem, rfl⟩)
      · simp [ht, hmem]
    · unfold holdOverlaps
      simp [hov1, hov2]
  exact (hold_conflict_pure _ _ _ _ _ _ _ _ rfl hsome).1

/-- C10, witness: a first call holds table 5 for 19:00 to 21:00; an
identical-reference retry at 19:30 to 21:30 one minute later is
denied. -/
theorem C10_retry_blocked_by_own_hold_witness :
    (createReservationHold
        ⟨(createReservationHold ⟨⟨[], []⟩, false, false⟩ [5] "t1" "r1"
            "2025-06-01" "19:00" "21:00" 0).2, false, false⟩
        [5] "t1" "r1" "2025-06-01" "19:30" "21:30" 60000).1.isConflict = true :=
  C10_retry_blocked_by_own_hold _ _ _ _ _ _ _ _ _ _ _ 5 (by decide) (by decide)
    (by decide) (by decide) (by decide)

end StripeServerless
